import Mathlib

/-!
# Verification of the social-net-synapse matching / ranking / reputation core

Shallow embedding of the Python backend (`app/services/embedding.py`,
`app/services/impact.py`, `app/services/matching.py`, `app/api/feed.py`,
`app/api/matching.py`) and proofs of the specification claims about it.

Modelling conventions:
* Python `float` values are modelled as real numbers (`ℝ`); where a claim only
  involves field arithmetic and rounding we use `ℚ` so that statements stay
  executable.
* Python strings are modelled as Lean `String` / `List Char`; `str.lower` is
  the character-wise lowercase map, `str.strip` drops whitespace from both
  ends, and the `in` operator is contiguous-sublist containment.
* Database tables are modelled as Lean lists in table order; SQL `WHERE`
  clauses become `List.filter`, `ORDER BY ... DESC` becomes a stable
  descending sort, `LIMIT n OFFSET k` becomes `(·.drop k).take n`.
* `async` functions returning values are modelled as pure functions; an HTTP
  exception raised by a route is modelled as an `Except` error paired with
  the (unchanged-so-far) database state.
-/

namespace SocialNet

/-! ## Numeric helpers -/

/-- Python's `round(x, 2)`: round to two decimal places.  (The half-way
tie-breaking mode is immaterial to every claim proved below.) -/
def roundTo2 {α : Type} [LinearOrderedField α] [FloorRing α] (x : α) : α :=
  ((round (x * 100) : ℤ) : α) / 100

/-! ## String helpers (Python `str` operations) -/

/-- Python `str.lower`, character-wise. -/
def pyLower (s : List Char) : List Char := s.map Char.toLower

/-- Python `str.strip`: drop whitespace from both ends. -/
def pyStrip (s : List Char) : List Char :=
  ((s.dropWhile Char.isWhitespace).reverse.dropWhile Char.isWhitespace).reverse

/-- Does `hay` start with `needle`? -/
def startsWithL : List Char → List Char → Bool
  | [], _ => true
  | _ :: _, [] => false
  | a :: as, b :: bs => a == b && startsWithL as bs

/-- Python's `needle in hay` for strings: contiguous substring containment. -/
def containsSubstring (needle : List Char) : List Char → Bool
  | [] => startsWithL needle []
  | c :: rest => startsWithL needle (c :: rest) || containsSubstring needle rest

/-- Python `str.split()` with no argument: maximal runs of non-whitespace. -/
def pySplit : List Char → List (List Char)
  | [] => []
  | c :: rest =>
    if c.isWhitespace then pySplit rest
    else
      match pySplit rest, rest with
      | [], _ => [[c]]
      | w :: ws, r :: _ => if r.isWhitespace then [c] :: w :: ws else (c :: w) :: ws
      | _ :: _, [] => [[c]]

/-! ## `app/services/embedding.py` -/

/-- `np.dot` on two float vectors (truncating at the shorter length, which the
equal-length caller contract makes irrelevant). -/
def dotProduct (u v : List ℝ) : ℝ := (List.zipWith (· * ·) u v).sum

/-- `np.linalg.norm`: the Euclidean norm. -/
noncomputable def vecNorm (u : List ℝ) : ℝ := Real.sqrt (dotProduct u u)

/-- `cosine_similarity(vec1, vec2)` (embedding.py lines 149-169):
dot product over norms, with an explicit `0.0` when either norm is zero. -/
noncomputable def cosine_similarity (vec1 vec2 : List ℝ) : ℝ :=
  if vecNorm vec1 = 0 ∨ vecNorm vec2 = 0 then 0
  else dotProduct vec1 vec2 / (vecNorm vec1 * vecNorm vec2)

/-- `cosine_similarity_percentage(vec1, vec2)` (embedding.py lines 172-184):
`round((similarity + 1) * 50, 2)`. -/
noncomputable def cosine_similarity_percentage (vec1 vec2 : List ℝ) : ℝ :=
  roundTo2 ((cosine_similarity vec1 vec2 + 1) * 50)

/-- The similarity-to-percentage map used by `cosine_similarity_percentage`
(embedding.py line 184), isolated over `ℚ`: `round((s + 1) * 50, 2)`. -/
def similarity_to_percentage (s : ℚ) : ℚ := roundTo2 ((s + 1) * 50)

/-! ## `app/services/impact.py` -/

/-- `RuleBasedFeedbackAnalyzer.CONSTRUCTIVE_KEYWORDS`. -/
def CONSTRUCTIVE_KEYWORDS : List (List Char) :=
  ["suggest".data, "improve".data, "because".data, "consider".data,
   "would be better".data, "could".data, "should".data, "recommend".data,
   "specifically".data, "example".data, "however".data, "alternatively".data,
   "instead".data, "try".data, "next time".data]

/-- `RuleBasedFeedbackAnalyzer.NON_CONSTRUCTIVE_PATTERNS`. -/
def NON_CONSTRUCTIVE_PATTERNS : List (List Char) :=
  ["good job".data, "nice work".data, "great".data, "awesome".data,
   "cool".data, "ok".data, "fine".data, "bad".data, "terrible".data,
   "sucks".data]

/-- The local variable `feedback_lower = feedback.lower().strip()` of
`RuleBasedFeedbackAnalyzer.analyze` (impact.py line 136). -/
def feedbackLower (feedback : String) : List Char := pyStrip (pyLower feedback.data)

/-- `constructive_count` (impact.py lines 143-146): the number of entries of
`CONSTRUCTIVE_KEYWORDS` occurring in the text. -/
def constructiveCount (text : List Char) : ℕ :=
  (CONSTRUCTIVE_KEYWORDS.filter fun k => containsSubstring k text).length

/-- `non_constructive_count` (impact.py lines 149-152): the number of entries
of `NON_CONSTRUCTIVE_PATTERNS` occurring in the text. -/
def genericCount (text : List Char) : ℕ :=
  (NON_CONSTRUCTIVE_PATTERNS.filter fun k => containsSubstring k text).length

/-- `RuleBasedFeedbackAnalyzer.analyze` (impact.py lines 127-166).
The length check, both keyword counts and the word count are all taken over
`feedback_lower`, the lower-cased and whitespace-stripped text. -/
def ruleBasedAnalyze (feedback : String) : Bool × String :=
  if (feedbackLower feedback).length < 20 then
    (false, "Feedback is too short to be constructive")
  else if 2 ≤ constructiveCount (feedbackLower feedback) then
    (true, "Feedback contains constructive suggestions")
  else if 1 ≤ constructiveCount (feedbackLower feedback) ∧
      genericCount (feedbackLower feedback) = 0 then
    (true, "Feedback shows constructive intent")
  else if constructiveCount (feedbackLower feedback) <
      genericCount (feedbackLower feedback) then
    (false, "Feedback appears to be generic praise or criticism")
  else if 15 ≤ (pySplit (feedbackLower feedback)).length then
    (true, "Feedback is detailed enough to be constructive")
  else
    (false, "Feedback lacks specific actionable suggestions")

/-- The structured `{is_constructive, reason}` result the LLM analyzer parses
out of a successful chat-completion call. -/
structure LLMResult where
  is_constructive : Bool
  reason : String

/-- `LLMFeedbackAnalyzer.analyze` (impact.py lines 44-88).  The entire
remote call / JSON parse / key lookup performed inside the `try` block is
modelled by its outcome: `Except.ok` with the parsed result, or
`Except.error` with the exception text.  The `except` branch returns the
safe default. -/
def llmAnalyze (callResult : Except String LLMResult) : Bool × String :=
  match callResult with
  | Except.ok r => (r.is_constructive, r.reason)
  | Except.error e => (false, "Analysis failed: " ++ e)

/-- `ImpactService.calculate_impact_points` (impact.py lines 199-223). -/
def calculate_impact_points (is_constructive : Bool) (feedback_length : ℤ) : ℤ :=
  if ¬is_constructive then 0
  else if 200 < feedback_length then 2
  else 1

/-! ## Stable descending sort

`list.sort(key=..., reverse=True)` in Python and `ORDER BY score DESC` in the
SQL queries are modelled by a stable descending insertion sort. -/

/-- Stable sort, descending by `key`.  Elements with equal keys keep their
original relative order. -/
def sortByKeyDesc {α β : Type} [LinearOrder β] (key : α → β) (l : List α) : List α :=
  List.insertionSort (fun a b => key b ≤ key a) l

/-! ## `app/models.py` rows and the database state -/

/-- A row of the `users` table (the fields the core reads). -/
structure UserRec where
  id : String
  username : String
  bio : Option String
  current_goal : Option String
  bio_vector : Option (List ℝ)
  h3_index : Option String
  impact_score : ℤ

/-- A row of the `posts` table. -/
structure PostRec where
  id : String
  author_id : String
  content : String
  content_vector : Option (List ℝ)
  impact_count : ℤ

/-- A row of the `interactions` table. -/
structure InteractionRec where
  from_user_id : String
  to_user_id : String
  type : String
  feedback_content : Option String
  is_constructive : Option Bool

/-- The database state seen by one request. -/
structure DB where
  users : List UserRec
  posts : List PostRec
  interactions : List InteractionRec

/-- An HTTP exception raised by a route (`HTTPException(status_code, detail)`). -/
structure HTTPError where
  status_code : ℕ
  detail : String
deriving DecidableEq

/-- Truthiness of Python's `Optional[str]`: `None` and `""` are falsy. -/
def pyFalsyStr : Option String → Bool
  | none => true
  | some s => s.isEmpty

/-- Python's `a or b` for an optional string `a`: `b` when `a` is falsy. -/
def pyOrStr (a : Option String) (b : String) : String :=
  match a with
  | none => b
  | some s => if s.isEmpty then b else s

/-! ## `app/services/matching.py` -/

/-- The h3 library functions used by `MatchingService`, kept abstract (they
are an external collaborator; no claim constrains their values). -/
structure H3Lib where
  grid_disk : String → ℕ → List String
  grid_distance : String → String → ℤ

/-- `MatchingService.find_nearby_users` (matching.py lines 66-101): users in
the ring cells, excluding the requester, excluding vectorless profiles,
limited to `limit` in table order. -/
def find_nearby_users (h3 : H3Lib) (users : List UserRec)
    (user_id : String) (h3_index : String) (rings : ℕ) (limit : ℕ) : List UserRec :=
  let cells := h3.grid_disk h3_index rings
  (users.filter fun u =>
    u.id != user_id && u.h3_index.any (fun h => cells.contains h) &&
      u.bio_vector.isSome).take limit

/-- One element of the list `find_matches` returns. -/
structure MatchRec where
  user : UserRec
  similarity_percentage : ℝ
  h3_distance : ℤ
  is_neighbor : Bool

/-- The pre-sort candidate list built by the loop inside
`MatchingService.find_matches` (matching.py lines 133-148). -/
noncomputable def find_match_candidates (h3 : H3Lib) (users : List UserRec)
    (user_id : String) (user_vector : List ℝ) (h3_index : String)
    (rings : ℕ) (min_similarity : ℝ) (limit : ℕ) : List MatchRec :=
  let nearby_users := find_nearby_users h3 users user_id h3_index rings (limit * 3)
  nearby_users.filterMap fun u =>
    match u.bio_vector with
    | none => none
    | some bv =>
      let similarity := cosine_similarity_percentage user_vector bv
      if min_similarity ≤ similarity then
        let distance := h3.grid_distance h3_index (u.h3_index.getD "")
        some ⟨u, similarity, distance, distance ≤ 1⟩
      else none

/-- `MatchingService.find_matches` (matching.py lines 103-153): score the
nearby users, drop those below `min_similarity`, sort descending by
similarity (Python's stable sort), truncate to `limit`. -/
noncomputable def find_matches (h3 : H3Lib) (users : List UserRec)
    (user_id : String) (user_vector : List ℝ) (h3_index : String)
    (rings : ℕ) (min_similarity : ℝ) (limit : ℕ) : List MatchRec :=
  (sortByKeyDesc (fun m => m.similarity_percentage)
    (find_match_candidates h3 users user_id user_vector h3_index rings
      min_similarity limit)).take limit

/-- A row returned by the raw pgvector SQL query inside
`find_semantic_matches`: user columns plus the cosine distance computed by
the storage collaborator.  Distances are modelled over `ℚ`. -/
structure SemRow where
  id : String
  username : String
  bio : Option String
  current_goal : Option String
  impact_score : ℤ
  distance : ℚ

/-- One element of the list `find_semantic_matches` returns. -/
structure SemMatch where
  id : String
  username : String
  bio : Option String
  current_goal : Option String
  impact_score : ℤ
  similarity_percentage : ℚ
deriving DecidableEq

/-- The distance-to-percentage conversion of `find_semantic_matches`
(matching.py line 198): `round((1 - distance) * 100, 2)`. -/
def semantic_match_percentage (distance : ℚ) : ℚ := roundTo2 ((1 - distance) * 100)

/-- `MatchingService.find_semantic_matches` (matching.py lines 155-212),
given the rows the storage query returned (the query itself — nearest
neighbours by `bio_vector <=> goal`, excluding the requester and vectorless
profiles, `LIMIT limit * 2` — is the storage collaborator's side). -/
def find_semantic_matches (rows : List SemRow) (limit : ℕ) (min_similarity : ℚ) :
    List SemMatch :=
  (rows.filterMap fun r =>
    let similarity := semantic_match_percentage r.distance
    if min_similarity ≤ similarity then
      some ⟨r.id, r.username, r.bio, r.current_goal, r.impact_score, similarity⟩
    else none).take limit

/-! ## `app/api/feed.py` -/

/-- pgvector's `<=>` operator: cosine distance, `1 - cosine_similarity`.
(Storage-collaborator semantics of the operator used in the raw SQL.) -/
noncomputable def pg_cosine_distance (u v : List ℝ) : ℝ := 1 - cosine_similarity u v

/-- The `final_score` column of the ranked-feed SQL query (feed.py lines
69-72): `(1 - (content_vector <=> goal)) * 0.8 + LEAST(impact_count / 10.0,
1.0) * 0.2`. -/
noncomputable def final_score (goal : List ℝ) (p : PostRec) : ℝ :=
  (1 - pg_cosine_distance (p.content_vector.getD []) goal) * 0.8 +
    min ((p.impact_count : ℝ) / 10) 1 * 0.2

/-- One entry of the feed response (`PostResponse`). -/
structure PostResponse where
  id : String
  author_id : String
  author_username : String
  content : String
  impact_count : ℤ
  similarity_score : ℝ
  is_impacted_by_me : Bool

/-- The `FeedResponse` shape. -/
structure FeedResponse where
  posts : List PostResponse
  total_count : ℕ
  curated_by : String

/-- The `WHERE`/`JOIN` part of the ranked-feed query: posts with a non-null
`content_vector` whose author row exists, in table order. -/
def feed_eligible (db : DB) : List PostRec :=
  db.posts.filter fun p =>
    p.content_vector.isSome && db.users.any fun u => u.id == p.author_id

/-- The response row built for a ranked post (feed.py lines 87-102);
`similarity = round((1 - distance) * 100, 2)` (line 89). -/
noncomputable def feed_post_response (db : DB) (cu : UserRec) (goal : List ℝ)
    (p : PostRec) : PostResponse :=
  { id := p.id
    author_id := p.author_id
    author_username :=
      ((db.users.find? fun u => u.id == p.author_id).map fun u => u.username).getD ""
    content := p.content
    impact_count := p.impact_count
    similarity_score := roundTo2 ((1 - pg_cosine_distance (p.content_vector.getD []) goal) * 100)
    is_impacted_by_me := db.interactions.any fun i =>
      i.from_user_id == cu.id && i.to_user_id == p.author_id && i.type == "impact" }

/-- The empty feed returned when the caller has no goal vector (feed.py
lines 40-45). -/
def empty_feed : FeedResponse :=
  { posts := [], total_count := 0, curated_by := "Set your goal to get personalized feed" }

/-- `GET /feed` (`get_feed`, feed.py lines 15-108): guard on the goal vector,
rank all eligible posts by `final_score` descending, then apply
`LIMIT limit OFFSET offset`. -/
noncomputable def get_feed (db : DB) (limit offset : ℕ) (cu : UserRec) : FeedResponse :=
  match cu.bio_vector with
  | none => empty_feed
  | some goal =>
    if goal.length = 0 then empty_feed
    else
      let ranked := sortByKeyDesc (final_score goal) (feed_eligible db)
      let page := (ranked.drop offset).take limit
      { posts := page.map (feed_post_response db cu goal)
        total_count := page.length
        curated_by := pyOrStr cu.current_goal "Your interests" }

/-- The response body of `impact_post` / `give_impact` on success. -/
structure ImpactResponse where
  message : String
  is_constructive : Bool
  impact_points : ℤ
deriving DecidableEq

/-- `POST /feed/posts/{post_id}/impact` (`impact_post`, feed.py lines
239-325).  The feedback analyzer (an external collaborator chosen by
configuration) is a parameter; raising an `HTTPException` yields the error
together with the database state at the raise point. -/
def impact_post (db : DB) (post_id : String) (feedback : String) (cu : UserRec)
    (analyzer : String → Bool × String) : Except HTTPError ImpactResponse × DB :=
  match db.posts.find? fun p => p.id == post_id with
  | none => (Except.error ⟨404, "Post not found"⟩, db)
  | some post =>
    if post.author_id == cu.id then
      (Except.error ⟨400, "Cannot give impact to your own post"⟩, db)
    else
      match db.users.find? fun u => u.id == post.author_id with
      | none => (Except.error ⟨404, "Post author not found"⟩, db)
      | some author =>
        let a := analyzer feedback
        let impact_points := calculate_impact_points a.1 feedback.length
        let db1 :=
          if 0 < impact_points then
            { db with
              users := db.users.map fun u =>
                if u.id == author.id then { u with impact_score := u.impact_score + impact_points } else u
              posts := db.posts.map fun p =>
                if p.id == post.id then { p with impact_count := p.impact_count + 1 } else p }
          else db
        let db2 := { db1 with interactions :=
          db1.interactions ++ [⟨cu.id, author.id, "impact", some feedback, some a.1⟩] }
        (Except.ok
          { message := if a.1 then "Impact applied" else "Feedback not constructive"
            is_constructive := a.1
            impact_points := impact_points }, db2)

/-! ## `app/api/matching.py` -/

/-- One entry of the `/matching/matches` response. -/
structure MatchResult where
  user_id : String
  username : String
  similarity_percentage : ℝ
  h3_distance : ℤ
  is_neighbor : Bool

/-- The `MatchesResponse` shape. -/
structure MatchesResponse where
  «matches» : List MatchResult
  total_count : ℕ
  user_h3_index : String

/-- `GET /matching/matches` (`get_matches`, matching.py lines 24-101):
guard on location, guard on the goal vector, then `find_matches`. -/
noncomputable def get_matches (h3 : H3Lib) (db : DB) (rings limit : ℕ)
    (min_similarity : ℝ) (cu : UserRec) : MatchesResponse :=
  if pyFalsyStr cu.h3_index then
    { «matches» := [], total_count := 0, user_h3_index := "" }
  else
    match cu.bio_vector with
    | none => { «matches» := [], total_count := 0, user_h3_index := cu.h3_index.getD "" }
    | some v =>
      if v.length = 0 then
        { «matches» := [], total_count := 0, user_h3_index := cu.h3_index.getD "" }
      else
        let ms := find_matches h3 db.users cu.id v (cu.h3_index.getD "") rings min_similarity limit
        { «matches» := ms.map fun m =>
            ⟨m.user.id, m.user.username, m.similarity_percentage, m.h3_distance, m.is_neighbor⟩
          total_count := ms.length
          user_h3_index := cu.h3_index.getD "" }

/-- `GET /matching/global` (`get_global_matches`, matching.py lines 151-186):
`if not current_user.bio_vector: raise` — `None` and the empty list are both
falsy — then `find_semantic_matches` over the storage rows. -/
def get_global_matches (rows : List SemRow) (limit : ℕ) (min_similarity : ℚ)
    (cu : UserRec) : Except HTTPError (List SemMatch) :=
  match cu.bio_vector with
  | none => Except.error ⟨400, "Please sync your goal first to enable matching"⟩
  | some v =>
    if v.length = 0 then Except.error ⟨400, "Please sync your goal first to enable matching"⟩
    else Except.ok (find_semantic_matches rows limit min_similarity)

/-- `POST /matching/impact` (`give_impact`, matching.py lines 189-264). -/
def give_impact (db : DB) (to_user_id : String) (feedback : String) (cu : UserRec)
    (analyzer : String → Bool × String) : Except HTTPError ImpactResponse × DB :=
  if to_user_id == cu.id then
    (Except.error ⟨400, "Cannot give impact to yourself"⟩, db)
  else
    match db.users.find? fun u => u.id == to_user_id with
    | none => (Except.error ⟨404, "Target user not found"⟩, db)
    | some target =>
      let a := analyzer feedback
      let impact_points := calculate_impact_points a.1 feedback.length
      let db1 :=
        if 0 < impact_points then
          { db with users := db.users.map fun u =>
              if u.id == target.id then { u with impact_score := u.impact_score + impact_points } else u }
        else db
      let db2 := { db1 with interactions :=
        db1.interactions ++ [⟨cu.id, target.id, "impact", some feedback, some a.1⟩] }
      (Except.ok
        { message :=
            if a.1 then "Feedback analyzed and impact applied"
            else "Feedback analyzed but not constructive"
          is_constructive := a.1
          impact_points := impact_points }, db2)

/-! ## Lemmas about the stable descending sort -/

theorem sortByKeyDesc_sorted {α β : Type} [LinearOrder β] (key : α → β) (l : List α) :
    (sortByKeyDesc key l).Pairwise fun a b => key b ≤ key a := by
  haveI : IsTotal α fun a b => key b ≤ key a := ⟨fun a b => le_total (key b) (key a)⟩
  haveI : IsTrans α fun a b => key b ≤ key a := ⟨fun _ _ _ h1 h2 => le_trans h2 h1⟩
  exact List.sorted_insertionSort _ l

theorem sortByKeyDesc_perm {α β : Type} [LinearOrder β] (key : α → β) (l : List α) :
    List.Perm (sortByKeyDesc key l) l :=
  List.perm_insertionSort _ l

theorem filter_orderedInsert_key_eq {α β : Type} [LinearOrder β] (key : α → β)
    (c : β) (x : α) (hx : key x = c) :
    ∀ l : List α,
      (List.orderedInsert (fun a b => key b ≤ key a) x l).filter (fun y => key y = c) =
        x :: l.filter fun y => key y = c
  | [] => by simp [List.orderedInsert, hx]
  | y :: l => by
    rw [List.orderedInsert]
    by_cases h : key y ≤ key x
    · rw [if_pos h]
      simp [List.filter_cons, hx]
    · rw [if_neg h]
      have hy : ¬(key y = c) := fun hyc => h (le_of_eq (hyc.trans hx.symm))
      simp [List.filter_cons, hy, filter_orderedInsert_key_eq key c x hx l]

theorem filter_orderedInsert_key_ne {α β : Type} [LinearOrder β] (key : α → β)
    (c : β) (x : α) (hx : ¬(key x = c)) :
    ∀ l : List α,
      (List.orderedInsert (fun a b => key b ≤ key a) x l).filter (fun y => key y = c) =
        l.filter fun y => key y = c
  | [] => by simp [List.orderedInsert, hx]
  | y :: l => by
    rw [List.orderedInsert]
    by_cases h : key y ≤ key x
    · rw [if_pos h]
      simp [List.filter_cons, hx]
    · rw [if_neg h]
      simp [List.filter_cons, filter_orderedInsert_key_ne key c x hx l]

/-- Stability of `sortByKeyDesc`: for every key value `c`, the elements whose
key is `c` appear in the sorted output exactly as they appear in the input. -/
theorem sortByKeyDesc_filter_key {α β : Type} [LinearOrder β] (key : α → β) (c : β) :
    ∀ l : List α,
      (sortByKeyDesc key l).filter (fun y => key y = c) = l.filter fun y => key y = c
  | [] => rfl
  | x :: l => by
    have ih := sortByKeyDesc_filter_key key c l
    unfold sortByKeyDesc List.insertionSort
    unfold sortByKeyDesc at ih
    by_cases hx : key x = c
    · rw [filter_orderedInsert_key_eq key c x hx _, ih]
      simp [List.filter_cons, hx]
    · rw [filter_orderedInsert_key_ne key c x hx _, ih]
      simp [List.filter_cons, hx]

/-- A filter of a prefix is a prefix of the filter. -/
theorem filter_take_append {α : Type} (p : α → Bool) (l : List α) (n : ℕ) :
    l.filter p = (l.take n).filter p ++ (l.drop n).filter p := by
  conv_lhs => rw [← List.take_append_drop n l]
  rw [List.filter_append]

/-! ## Cauchy-Schwarz for `dotProduct`, bounds for `cosine_similarity` -/

theorem dotProduct_nil_right (u : List ℝ) : dotProduct u [] = 0 := by
  cases u <;> simp [dotProduct]

theorem dotProduct_self_nonneg (u : List ℝ) : 0 ≤ dotProduct u u := by
  induction u with
  | nil => simp [dotProduct]
  | cons a u ih =>
    have : dotProduct (a :: u) (a :: u) = a * a + dotProduct u u := by
      simp [dotProduct]
    rw [this]
    nlinarith [sq_nonneg a]

theorem dotProduct_comm (u : List ℝ) : ∀ v : List ℝ, dotProduct u v = dotProduct v u := by
  induction u with
  | nil => intro v; simp [dotProduct, dotProduct_nil_right]
  | cons a u ih =>
    intro v
    cases v with
    | nil => simp [dotProduct, dotProduct_nil_right]
    | cons b v =>
      have h1 : dotProduct (a :: u) (b :: v) = a * b + dotProduct u v := by simp [dotProduct]
      have h2 : dotProduct (b :: v) (a :: u) = b * a + dotProduct v u := by simp [dotProduct]
      rw [h1, h2, ih v, mul_comm]

/-- The inductive step of Cauchy-Schwarz on one extra coordinate. -/
theorem cauchy_schwarz_step (a b U V D : ℝ) (hU : 0 ≤ U) (hV : 0 ≤ V)
    (hD : D ^ 2 ≤ U * V) : (a * b + D) ^ 2 ≤ (a * a + U) * (b * b + V) := by
  by_cases hV0 : V = 0
  · have hD2 : D ^ 2 ≤ 0 := by rw [hV0] at hD; linarith [hD]
    have hD0 : D = 0 := by
      have h1 := sq_nonneg D
      have h2 : D ^ 2 = 0 := le_antisymm hD2 h1
      exact pow_eq_zero_iff two_ne_zero |>.mp h2
    subst hD0 hV0
    nlinarith [mul_nonneg hU (sq_nonneg b), mul_nonneg hU hV]
  · have hVpos : 0 < V := lt_of_le_of_ne hV (Ne.symm hV0)
    have key : 0 ≤ V * ((a * a + U) * (b * b + V) - (a * b + D) ^ 2) := by
      nlinarith [sq_nonneg (a * V - b * D), mul_nonneg (sub_nonneg.mpr hD) hV,
        mul_nonneg (sub_nonneg.mpr hD) (sq_nonneg b)]
    nlinarith [key, hVpos]

theorem dotProduct_sq_le (u : List ℝ) :
    ∀ v : List ℝ, (dotProduct u v) ^ 2 ≤ dotProduct u u * dotProduct v v := by
  induction u with
  | nil =>
    intro v
    simp [dotProduct]
  | cons a u ih =>
    intro v
    cases v with
    | nil =>
      rw [dotProduct_nil_right]
      have : dotProduct (a :: u) (a :: u) * dotProduct ([] : List ℝ) [] = 0 := by
        simp [dotProduct]
      rw [this]
      norm_num
    | cons b v =>
      have hD := ih v
      have hU := dotProduct_self_nonneg u
      have hV := dotProduct_self_nonneg v
      have h1 : dotProduct (a :: u) (b :: v) = a * b + dotProduct u v := by simp [dotProduct]
      have h2 : dotProduct (a :: u) (a :: u) = a * a + dotProduct u u := by simp [dotProduct]
      have h3 : dotProduct (b :: v) (b :: v) = b * b + dotProduct v v := by simp [dotProduct]
      rw [h1, h2, h3]
      exact cauchy_schwarz_step a b (dotProduct u u) (dotProduct v v) (dotProduct u v) hU hV hD

theorem vecNorm_nonneg (u : List ℝ) : 0 ≤ vecNorm u := Real.sqrt_nonneg _

theorem abs_dotProduct_le (u v : List ℝ) : |dotProduct u v| ≤ vecNorm u * vecNorm v := by
  have h : |dotProduct u v| = Real.sqrt ((dotProduct u v) ^ 2) :=
    (Real.sqrt_sq_eq_abs _).symm
  rw [h, vecNorm, vecNorm, ← Real.sqrt_mul (dotProduct_self_nonneg u)]
  exact Real.sqrt_le_sqrt (dotProduct_sq_le u v)

theorem cosine_similarity_bounds (u v : List ℝ) :
    -1 ≤ cosine_similarity u v ∧ cosine_similarity u v ≤ 1 := by
  rw [cosine_similarity]
  split_ifs with h
  · norm_num
  · push_neg at h
    have hu : 0 < vecNorm u := lt_of_le_of_ne (vecNorm_nonneg u) (Ne.symm h.1)
    have hv : 0 < vecNorm v := lt_of_le_of_ne (vecNorm_nonneg v) (Ne.symm h.2)
    have hpos : 0 < vecNorm u * vecNorm v := mul_pos hu hv
    have habs : |dotProduct u v / (vecNorm u * vecNorm v)| ≤ 1 := by
      rw [abs_div, abs_of_pos hpos]
      exact div_le_one_of_le₀ (abs_dotProduct_le u v) (le_of_lt hpos)
    exact abs_le.mp habs

/-! ## Claim theorems -/

/-- C7: for equal-length vectors, `cosine_similarity` returns a value in
`[-1, 1]`; it returns exactly `0` when either vector has zero norm; and in
the dividing branch the denominator is nonzero (so the function never
divides by zero and, under the equal-length precondition, never raises). -/
theorem C7_cosine_similarity_safe (u v : List ℝ) (h : u.length = v.length) :
    (-1 ≤ cosine_similarity u v ∧ cosine_similarity u v ≤ 1) ∧
    ((vecNorm u = 0 ∨ vecNorm v = 0) → cosine_similarity u v = 0) ∧
    (vecNorm u ≠ 0 → vecNorm v ≠ 0 →
      vecNorm u * vecNorm v ≠ 0 ∧
      cosine_similarity u v = dotProduct u v / (vecNorm u * vecNorm v)) := by
  refine ⟨cosine_similarity_bounds u v, ?_, ?_⟩
  · intro hz
    rw [cosine_similarity, if_pos hz]
  · intro h1 h2
    refine ⟨mul_ne_zero h1 h2, ?_⟩
    rw [cosine_similarity, if_neg (by tauto)]

theorem C7_witness :
    ([1, 0] : List ℝ).length = ([0, 1] : List ℝ).length ∧
    ((-1 ≤ cosine_similarity [1, 0] [0, 1] ∧ cosine_similarity [1, 0] [0, 1] ≤ 1) ∧
      ((vecNorm [1, 0] = 0 ∨ vecNorm [0, 1] = 0) → cosine_similarity [1, 0] [0, 1] = 0) ∧
      (vecNorm [1, 0] ≠ 0 → vecNorm [0, 1] ≠ 0 →
        vecNorm [1, 0] * vecNorm [0, 1] ≠ 0 ∧
        cosine_similarity [1, 0] [0, 1] =
          dotProduct [1, 0] [0, 1] / (vecNorm [1, 0] * vecNorm [0, 1]))) :=
  ⟨rfl, C7_cosine_similarity_safe [1, 0] [0, 1] rfl⟩

/-- C10: cosine similarity, and hence the similarity percentage, is
symmetric in its two (equal-length) vector arguments. -/
theorem C10_similarity_symmetric (u v : List ℝ) (h : u.length = v.length) :
    cosine_similarity u v = cosine_similarity v u ∧
    cosine_similarity_percentage u v = cosine_similarity_percentage v u := by
  have hsym : cosine_similarity u v = cosine_similarity v u := by
    rw [cosine_similarity, cosine_similarity, dotProduct_comm u v]
    by_cases h1 : vecNorm u = 0 <;> by_cases h2 : vecNorm v = 0 <;>
      simp [h1, h2, mul_comm]
  exact ⟨hsym, by rw [cosine_similarity_percentage, cosine_similarity_percentage, hsym]⟩

theorem C10_witness :
    ([1, 2] : List ℝ).length = ([3, 4] : List ℝ).length ∧
    (cosine_similarity [1, 2] [3, 4] = cosine_similarity [3, 4] [1, 2] ∧
      cosine_similarity_percentage [1, 2] [3, 4] = cosine_similarity_percentage [3, 4] [1, 2]) :=
  ⟨rfl, C10_similarity_symmetric [1, 2] [3, 4] rfl⟩

/-- C5: `calculate_impact_points` returns `0` for non-constructive feedback,
`2` for constructive feedback longer than 200 characters, `1` for
constructive feedback of at most 200 characters, and nothing else. -/
theorem C5_calculate_impact_points (b : Bool) (n : ℤ) :
    (b = false → calculate_impact_points b n = 0) ∧
    (b = true → 200 < n → calculate_impact_points b n = 2) ∧
    (b = true → n ≤ 200 → calculate_impact_points b n = 1) ∧
    (calculate_impact_points b n = 0 ∨ calculate_impact_points b n = 1 ∨
      calculate_impact_points b n = 2) := by
  unfold calculate_impact_points
  cases b <;> refine ⟨?_, ?_, ?_, ?_⟩ <;> split_ifs <;> simp_all

theorem C5_witness :
    calculate_impact_points true 250 = 2 ∧ calculate_impact_points true 50 = 1 ∧
    calculate_impact_points false 999 = 0 :=
  ⟨(C5_calculate_impact_points true 250).2.1 rfl (by norm_num),
   (C5_calculate_impact_points true 50).2.2.1 rfl (by norm_num),
   (C5_calculate_impact_points false 999).1 rfl⟩

/-- C2 (counterexample): at cosine distance `d = 1/2`, the global-mode
conversion of `find_semantic_matches` yields `50`, while
`cosine_similarity_percentage`'s mapping applied to the cosine similarity
`1 - d = 1/2` yields `75`; the two modes do not use the same
cosine-distance-to-percentage mapping, refuting the claim as stated. -/
theorem C2_counterexample :
    semantic_match_percentage (1 / 2) = 50 ∧
    similarity_to_percentage (1 - 1 / 2) = 75 ∧
    ¬semantic_match_percentage (1 / 2) = similarity_to_percentage (1 - 1 / 2) := by
  refine ⟨?_, ?_, ?_⟩ <;>
    norm_num [semantic_match_percentage, similarity_to_percentage, roundTo2, round_eq]

/-- C2 (amended): the percentage `find_semantic_matches` computes from a
cosine distance `d` is `round((1 - d) * 100, 2)`, which equals the
proximity-mode similarity-to-percentage mapping applied to `1 - 2·d`
(not to the cosine similarity `1 - d`). -/
theorem C2_distance_mapping (d : ℚ) :
    semantic_match_percentage d = similarity_to_percentage (1 - 2 * d) := by
  rw [semantic_match_percentage, similarity_to_percentage]
  rw [show (1 - d) * 100 = ((1 - 2 * d) + 1) * 50 by ring]

theorem C2_witness :
    semantic_match_percentage 0 = similarity_to_percentage (1 - 2 * 0) :=
  C2_distance_mapping 0

/-- C8: when the external call behind `LLMFeedbackAnalyzer.analyze` fails
with any exception, the analyzer returns `(False, failure reason)` instead
of propagating, and a feedback submission driven by it still completes: the
route answers `201` with a not-constructive verdict, appends the interaction
record, and leaves every reputation / popularity counter unchanged. -/
theorem C8_llm_failure_degrades (e : String) (db : DB) (post_id feedback : String)
    (cu : UserRec) (post : PostRec) (author : UserRec)
    (hp : db.posts.find? (fun p => p.id == post_id) = some post)
    (hself : (post.author_id == cu.id) = false)
    (ha : db.users.find? (fun u => u.id == post.author_id) = some author) :
    llmAnalyze (Except.error e) = (false, "Analysis failed: " ++ e) ∧
    impact_post db post_id feedback cu (fun _ => llmAnalyze (Except.error e)) =
      (Except.ok ⟨"Feedback not constructive", false, 0⟩,
        { db with interactions :=
            db.interactions ++ [⟨cu.id, author.id, "impact", some feedback, some false⟩] }) := by
  refine ⟨rfl, ?_⟩
  simp [impact_post, hp, hself, ha, llmAnalyze, calculate_impact_points]

theorem C8_witness :
    impact_post ⟨[⟨"u2", "bob", none, none, none, none, 0⟩], [⟨"p1", "u2", "hi", none, 0⟩], []⟩
        "p1" "fb" ⟨"u1", "alice", none, none, none, none, 0⟩
        (fun _ => llmAnalyze (Except.error "timeout")) =
      (Except.ok ⟨"Feedback not constructive", false, 0⟩,
        ⟨[⟨"u2", "bob", none, none, none, none, 0⟩], [⟨"p1", "u2", "hi", none, 0⟩],
          [⟨"u1", "u2", "impact", some "fb", some false⟩]⟩) :=
  (C8_llm_failure_degrades "timeout"
      ⟨[⟨"u2", "bob", none, none, none, none, 0⟩], [⟨"p1", "u2", "hi", none, 0⟩], []⟩
      "p1" "fb" ⟨"u1", "alice", none, none, none, none, 0⟩ ⟨"p1", "u2", "hi", none, 0⟩
      ⟨"u2", "bob", none, none, none, none, 0⟩ rfl rfl rfl).2

/-- C6: a self-feedback submission is rejected with a `400` domain error by
both feedback routes, before the classifier is ever consulted (the outcome
is the same for every analyzer) and with the database state unchanged — no
counter moves and no interaction record is created. -/
theorem C6_self_feedback_rejected (db : DB) (post_id feedback to_user_id : String)
    (cu : UserRec) (post : PostRec)
    (hp : db.posts.find? (fun p => p.id == post_id) = some post)
    (hself : post.author_id = cu.id) (hto : to_user_id = cu.id) :
    (∀ analyzer : String → Bool × String,
      impact_post db post_id feedback cu analyzer =
        (Except.error ⟨400, "Cannot give impact to your own post"⟩, db)) ∧
    (∀ analyzer : String → Bool × String,
      give_impact db to_user_id feedback cu analyzer =
        (Except.error ⟨400, "Cannot give impact to yourself"⟩, db)) := by
  constructor
  · intro analyzer
    simp [impact_post, hp, hself]
  · intro analyzer
    simp [give_impact, hto]

theorem C6_witness :
    impact_post ⟨[], [⟨"p1", "u1", "hello", none, 0⟩], []⟩ "p1" "fb"
        ⟨"u1", "alice", none, none, none, none, 0⟩ (fun _ => (true, "r")) =
      (Except.error ⟨400, "Cannot give impact to your own post"⟩,
        ⟨[], [⟨"p1", "u1", "hello", none, 0⟩], []⟩) :=
  (C6_self_feedback_rejected ⟨[], [⟨"p1", "u1", "hello", none, 0⟩], []⟩ "p1" "fb" "u1"
      ⟨"u1", "alice", none, none, none, none, 0⟩ ⟨"p1", "u1", "hello", none, 0⟩
      rfl rfl rfl).1 (fun _ => (true, "r"))

/-- C9: a present-but-empty goal vector behaves exactly like an absent one at
all three entry points: the ranked feed returns the empty prompt feed, the
proximity endpoint returns an empty match list, and the global endpoint
raises the missing-goal validation error. -/
theorem C9_empty_vector_like_missing (db : DB) (limit offset rings glimit : ℕ)
    (minR : ℝ) (minQ : ℚ) (rows : List SemRow) (h3 : H3Lib) (u : UserRec)
    (hu : u.bio_vector = some []) :
    (get_feed db limit offset u = get_feed db limit offset { u with bio_vector := none } ∧
      get_feed db limit offset u = empty_feed) ∧
    (get_matches h3 db rings limit minR u =
        get_matches h3 db rings limit minR { u with bio_vector := none } ∧
      (get_matches h3 db rings limit minR u).«matches» = []) ∧
    (get_global_matches rows glimit minQ u =
        get_global_matches rows glimit minQ { u with bio_vector := none } ∧
      get_global_matches rows glimit minQ u =
        Except.error ⟨400, "Please sync your goal first to enable matching"⟩) := by
  refine ⟨⟨?_, ?_⟩, ⟨?_, ?_⟩, ⟨?_, ?_⟩⟩
  · simp [get_feed, hu]
  · simp [get_feed, hu]
  · by_cases hh : pyFalsyStr u.h3_index <;> simp [get_matches, hu, hh]
  · by_cases hh : pyFalsyStr u.h3_index <;> simp [get_matches, hu, hh]
  · simp [get_global_matches, hu]
  · simp [get_global_matches, hu]

/-- The rule-based classifier decision exactly as claim C4 words it: the
too-short rejection keyed on the character count of the (raw) feedback text,
and all counting done on the lower-cased text with no whitespace
stripping. -/
def claimedRuleVerdict (feedback : String) : Bool :=
  if feedback.data.length < 20 then false
  else if 2 ≤ constructiveCount (pyLower feedback.data) then true
  else if 1 ≤ constructiveCount (pyLower feedback.data) ∧
      genericCount (pyLower feedback.data) = 0 then true
  else if constructiveCount (pyLower feedback.data) <
      genericCount (pyLower feedback.data) then false
  else decide (15 ≤ (pySplit (pyLower feedback.data)).length)

/-- C4 (counterexample): on the 20-character text `"try"` followed by 17
spaces, the claim's decision procedure says constructive (20 characters, one
constructive keyword, no generic pattern), but the code strips whitespace
before the length check, so `RuleBasedFeedbackAnalyzer.analyze` rejects it
as too short and returns not-constructive. -/
theorem C4_counterexample :
    claimedRuleVerdict "try                 " = true ∧
    ruleBasedAnalyze "try                 " =
      (false, "Feedback is too short to be constructive") := by
  constructor <;> rfl

/-- C4 (amended): the rule-based classifier follows exactly the claimed
decision order, with every measurement — the under-20-characters rejection,
the keyword and generic-pattern counts, and the 15-word test — taken on the
lower-cased, whitespace-stripped feedback text. -/
theorem C4_rule_classifier (s : String) :
    ((feedbackLower s).length < 20 →
      ruleBasedAnalyze s = (false, "Feedback is too short to be constructive")) ∧
    (20 ≤ (feedbackLower s).length →
      (2 ≤ constructiveCount (feedbackLower s) → (ruleBasedAnalyze s).1 = true) ∧
      (1 ≤ constructiveCount (feedbackLower s) → genericCount (feedbackLower s) = 0 →
        (ruleBasedAnalyze s).1 = true) ∧
      (constructiveCount (feedbackLower s) < 2 →
        ¬(1 ≤ constructiveCount (feedbackLower s) ∧ genericCount (feedbackLower s) = 0) →
        constructiveCount (feedbackLower s) < genericCount (feedbackLower s) →
        (ruleBasedAnalyze s).1 = false) ∧
      (constructiveCount (feedbackLower s) < 2 →
        ¬(1 ≤ constructiveCount (feedbackLower s) ∧ genericCount (feedbackLower s) = 0) →
        genericCount (feedbackLower s) ≤ constructiveCount (feedbackLower s) →
        ((ruleBasedAnalyze s).1 = true ↔ 15 ≤ (pySplit (feedbackLower s)).length))) := by
  constructor
  · intro h
    rw [ruleBasedAnalyze, if_pos h]
  · intro h
    have hns : ¬((feedbackLower s).length < 20) := by omega
    refine ⟨?_, ?_, ?_, ?_⟩
    · intro h2
      rw [ruleBasedAnalyze, if_neg hns, if_pos h2]
    · intro h1 h0
      by_cases h2 : 2 ≤ constructiveCount (feedbackLower s)
      · rw [ruleBasedAnalyze, if_neg hns, if_pos h2]
      · rw [ruleBasedAnalyze, if_neg hns, if_neg h2, if_pos ⟨h1, h0⟩]
    · intro h2 hno hlt
      rw [ruleBasedAnalyze, if_neg hns, if_neg (by omega), if_neg hno, if_pos hlt]
    · intro h2 hno hle
      rw [ruleBasedAnalyze, if_neg hns, if_neg (by omega), if_neg hno,
        if_neg (by omega)]
      by_cases hw : 15 ≤ (pySplit (feedbackLower s)).length
      · rw [if_pos hw]
        simpa using hw
      · rw [if_neg hw]
        simpa using hw

theorem C4_witness :
    ruleBasedAnalyze "hi" = (false, "Feedback is too short to be constructive") :=
  (C4_rule_classifier "hi").1 (by decide)

theorem C9_witness :
    get_global_matches [] 20 30 ⟨"u1", "alice", none, none, some [], some "cell", 0⟩ =
      Except.error ⟨400, "Please sync your goal first to enable matching"⟩ :=
  (C9_empty_vector_like_missing ⟨[], [], []⟩ 10 0 2 20 0 30 [] ⟨fun _ _ => [], fun _ _ => 0⟩
      ⟨"u1", "alice", none, none, some [], some "cell", 0⟩ rfl).2.2.2

/-- Every candidate match was built from a nearby user: it is not the
requester, and its similarity passed the threshold. -/
theorem find_match_candidates_mem {h3 : H3Lib} {users : List UserRec}
    {user_id : String} {user_vector : List ℝ} {h3_index : String}
    {rings : ℕ} {min_similarity : ℝ} {limit : ℕ} {m : MatchRec}
    (hm : m ∈ find_match_candidates h3 users user_id user_vector h3_index rings
      min_similarity limit) :
    m.user.id ≠ user_id ∧ min_similarity ≤ m.similarity_percentage := by
  rw [find_match_candidates, List.mem_filterMap] at hm
  obtain ⟨u, hu, hf⟩ := hm
  have huser : m.user = u ∧ min_similarity ≤ m.similarity_percentage := by
    cases hbv : u.bio_vector with
    | none => simp [hbv] at hf
    | some bv =>
      simp only [hbv] at hf
      split_ifs at hf with hsim
      cases hf
      exact ⟨rfl, hsim⟩
  refine ⟨?_, huser.2⟩
  rw [huser.1]
  have hu' : u ∈ users.filter fun x =>
      x.id != user_id && x.h3_index.any (fun h => (h3.grid_disk h3_index rings).contains h) &&
        x.bio_vector.isSome := by
    rw [find_nearby_users] at hu
    exact List.mem_of_mem_take hu
  rw [List.mem_filter] at hu'
  have := hu'.2
  simp only [Bool.and_eq_true, bne_iff_ne] at this
  exact this.1.1

/-- C3: `find_matches` never returns the requester, everything it returns
clears the `min_similarity` threshold, the output is sorted descending by
similarity percentage (equal similarities keep their retrieval order: the
output's slice at any similarity value is a prefix of the candidate list's
slice at that value), and at most `limit` matches are returned. -/
theorem C3_find_matches (h3 : H3Lib) (users : List UserRec) (user_id : String)
    (user_vector : List ℝ) (h3_index : String) (rings : ℕ) (min_similarity : ℝ)
    (limit : ℕ) :
    (∀ m ∈ find_matches h3 users user_id user_vector h3_index rings min_similarity limit,
      m.user.id ≠ user_id ∧ min_similarity ≤ m.similarity_percentage) ∧
    (find_matches h3 users user_id user_vector h3_index rings min_similarity limit).Pairwise
      (fun a b => b.similarity_percentage ≤ a.similarity_percentage) ∧
    (find_matches h3 users user_id user_vector h3_index rings min_similarity limit).length
      ≤ limit ∧
    (∀ c : ℝ, ∃ rest,
      (find_match_candidates h3 users user_id user_vector h3_index rings min_similarity
          limit).filter (fun m => m.similarity_percentage = c) =
        (find_matches h3 users user_id user_vector h3_index rings min_similarity
            limit).filter (fun m => m.similarity_percentage = c) ++ rest) := by
  refine ⟨?_, ?_, ?_, ?_⟩
  · intro m hm
    rw [find_matches] at hm
    have hm' := (sortByKeyDesc_perm (fun m : MatchRec => m.similarity_percentage) _).mem_iff.mp
      (List.mem_of_mem_take hm)
    exact find_match_candidates_mem hm'
  · rw [find_matches]
    exact List.Pairwise.sublist (List.take_sublist _ _)
      (sortByKeyDesc_sorted (fun m : MatchRec => m.similarity_percentage) _)
  · rw [find_matches, List.length_take]
    exact min_le_left _ _
  · intro c
    refine ⟨((sortByKeyDesc (fun m : MatchRec => m.similarity_percentage)
        (find_match_candidates h3 users user_id user_vector h3_index rings min_similarity
          limit)).drop limit).filter (fun m => m.similarity_percentage = c), ?_⟩
    rw [find_matches,
      ← sortByKeyDesc_filter_key (fun m : MatchRec => m.similarity_percentage) c]
    exact filter_take_append _ _ limit

theorem C3_witness :
    (find_matches ⟨fun _ _ => [], fun _ _ => 0⟩ [] "u" [] "c" 0 0 0).length ≤ 0 :=
  (C3_find_matches ⟨fun _ _ => [], fun _ _ => 0⟩ [] "u" [] "c" 0 0 0).2.2.1

/-- C1: the ranked feed scores every vectored post as
`similarityPercentage/100 · 0.8 + min(impact_count/10, 1) · 0.2` (where the
similarity percentage of a post against the caller's goal is
`(1 - cosine distance) · 100`), returns the page sorted descending by that
score, ranks exactly the eligible posts, and applies `limit`/`offset`
pagination only after the full ranking. -/
theorem C1_feed_ranking (db : DB) (limit offset : ℕ) (cu : UserRec) (goal : List ℝ)
    (hv : cu.bio_vector = some goal) (hne : ¬goal.length = 0) :
    (∀ p : PostRec, final_score goal p =
      ((1 - pg_cosine_distance (p.content_vector.getD []) goal) * 100) / 100 * 0.8 +
        min ((p.impact_count : ℝ) / 10) 1 * 0.2) ∧
    (get_feed db limit offset cu).posts =
      (((sortByKeyDesc (final_score goal) (feed_eligible db)).drop offset).take limit).map
        (feed_post_response db cu goal) ∧
    (((sortByKeyDesc (final_score goal) (feed_eligible db)).drop offset).take limit).Pairwise
      (fun a b => final_score goal b ≤ final_score goal a) ∧
    List.Perm (sortByKeyDesc (final_score goal) (feed_eligible db)) (feed_eligible db) ∧
    (get_feed db limit offset cu).posts =
      (((get_feed db db.posts.length 0 cu).posts).drop offset).take limit := by
  have hposts : ∀ l o : ℕ, (get_feed db l o cu).posts =
      (((sortByKeyDesc (final_score goal) (feed_eligible db)).drop o).take l).map
        (feed_post_response db cu goal) := by
    intro l o
    rw [get_feed, hv]
    simp only [if_neg hne]
  refine ⟨?_, hposts limit offset, ?_, sortByKeyDesc_perm _ _, ?_⟩
  · intro p
    simp only [final_score]
    ring
  · exact List.Pairwise.sublist ((List.take_sublist _ _).trans (List.drop_sublist _ _))
      (sortByKeyDesc_sorted (final_score goal) _)
  · rw [hposts limit offset, hposts db.posts.length 0, List.drop_zero]
    have hlen : (sortByKeyDesc (final_score goal) (feed_eligible db)).length ≤
        db.posts.length := by
      rw [(sortByKeyDesc_perm (final_score goal) (feed_eligible db)).length_eq]
      exact List.length_filter_le _ _
    rw [List.take_of_length_le hlen, List.map_take, List.map_drop]

theorem C1_witness :
    (⟨"u1", "a", none, none, some [1], none, 0⟩ : UserRec).bio_vector = some [1] ∧
    final_score [1] ⟨"p1", "u1", "c", some [1], 5⟩ =
      ((1 - pg_cosine_distance
          ((⟨"p1", "u1", "c", some [1], 5⟩ : PostRec).content_vector.getD []) [1]) * 100)
          / 100 * 0.8 +
        min (((⟨"p1", "u1", "c", some [1], 5⟩ : PostRec).impact_count : ℝ) / 10) 1 * 0.2 :=
  ⟨rfl, (C1_feed_ranking ⟨[], [], []⟩ 1 0 ⟨"u1", "a", none, none, some [1], none, 0⟩ [1] rfl
      (by simp)).1 ⟨"p1", "u1", "c", some [1], 5⟩⟩

end SocialNet
